import Mathlib

/-!
Verification of the pre-delinquency intervention engine: a shallow
embedding of the scoring, attribution, intervention-decision and
capacity-aware impact-simulation core of `app.py`, with theorems settling
the specified properties.  All real-valued quantities are modelled as
exact rationals (`ℚ`); tier and label values are the `String`s the code
uses.
-/

namespace PDIE

/-- The seven behavioural signals, in declaration order (`FEATURES` in the
source). -/
def FEATURES : List String :=
  [ "salary_delay_days"
  , "savings_drop_pct"
  , "discretionary_spend_change_pct"
  , "utility_payment_delay_days"
  , "lending_app_upi_txn_count"
  , "atm_withdrawal_spike_pct"
  , "failed_autodebit" ]

/-- Per-signal weights (`WEIGHTS` in the source); any other key maps to 0. -/
def WEIGHTS : String → ℚ
  | "salary_delay_days" => 0.18
  | "savings_drop_pct" => 0.17
  | "discretionary_spend_change_pct" => 0.14
  | "utility_payment_delay_days" => 0.14
  | "lending_app_upi_txn_count" => 0.12
  | "atm_withdrawal_spike_pct" => 0.10
  | "failed_autodebit" => 0.15
  | _ => 0

/-- `_clip(val, lo, hi) = max(lo, min(hi, val))` from the source. -/
def _clip (val lo hi : ℚ) : ℚ := max lo (min hi val)

/-- `_tier(score)` from the source: `score < 0.4 → "Low"`,
`score <= 0.7 → "Medium"`, else `"High"`. -/
def _tier (score : ℚ) : String :=
  if score < 0.4 then "Low"
  else if score ≤ 0.7 then "Medium"
  else "High"

/-- Rank of a tier string in the ordinal order Low < Medium < High
(used only to state monotonicity; `_tier` only returns these three
strings). -/
def tierRank : String → ℕ
  | "Low" => 0
  | "Medium" => 1
  | _ => 2

/-- One Signal Record: the seven raw signal values of one customer-week.
`failed_autodebit` is the 0/1 flag of the data model, held as `Bool`. -/
structure SignalRecord where
  salary_delay_days : ℚ
  savings_drop_pct : ℚ
  discretionary_spend_change_pct : ℚ
  utility_payment_delay_days : ℚ
  lending_app_upi_txn_count : ℚ
  atm_withdrawal_spike_pct : ℚ
  failed_autodebit : Bool

/-- Row of `_risk_components`: `np.clip((x-3)/4, 0, 1) * 0.18`. -/
def contribSalary (r : SignalRecord) : ℚ :=
  _clip ((r.salary_delay_days - 3) / 4) 0 1 * WEIGHTS "salary_delay_days"

/-- Row of `_risk_components`: `np.clip((x-20)/20, 0, 1) * 0.17`. -/
def contribSavings (r : SignalRecord) : ℚ :=
  _clip ((r.savings_drop_pct - 20) / 20) 0 1 * WEIGHTS "savings_drop_pct"

/-- Row of `_risk_components`: `np.clip((-40-x)/30, 0, 1) * 0.14`. -/
def contribDiscretionary (r : SignalRecord) : ℚ :=
  _clip ((-40 - r.discretionary_spend_change_pct) / 30) 0 1 *
    WEIGHTS "discretionary_spend_change_pct"

/-- Row of `_risk_components`: `np.clip((x-5)/5, 0, 1) * 0.14`. -/
def contribUtility (r : SignalRecord) : ℚ :=
  _clip ((r.utility_payment_delay_days - 5) / 5) 0 1 *
    WEIGHTS "utility_payment_delay_days"

/-- Row of `_risk_components`: `np.clip((x-3)/5, 0, 1) * 0.12`. -/
def contribLending (r : SignalRecord) : ℚ :=
  _clip ((r.lending_app_upi_txn_count - 3) / 5) 0 1 *
    WEIGHTS "lending_app_upi_txn_count"

/-- Row of `_risk_components`: `np.clip((x-30)/30, 0, 1) * 0.10`. -/
def contribAtm (r : SignalRecord) : ℚ :=
  _clip ((r.atm_withdrawal_spike_pct - 30) / 30) 0 1 *
    WEIGHTS "atm_withdrawal_spike_pct"

/-- Row of `_risk_components`: `x.astype(float) * 0.15` (the 0/1 flag is
multiplied by its weight with no clip). -/
def contribAutodebit (r : SignalRecord) : ℚ :=
  (if r.failed_autodebit then (1 : ℚ) else 0) * WEIGHTS "failed_autodebit"

/-- The contribution vector of one record, keyed by signal name in
`FEATURES` order (the columns of `_risk_components`). -/
def contributions (r : SignalRecord) : List (String × ℚ) :=
  [ ("salary_delay_days", contribSalary r)
  , ("savings_drop_pct", contribSavings r)
  , ("discretionary_spend_change_pct", contribDiscretionary r)
  , ("utility_payment_delay_days", contribUtility r)
  , ("lending_app_upi_txn_count", contribLending r)
  , ("atm_withdrawal_spike_pct", contribAtm r)
  , ("failed_autodebit", contribAutodebit r) ]

/-- `comp.sum(axis=1)`: the unclamped sum of the seven contributions. -/
def unclampedScore (r : SignalRecord) : ℚ :=
  contribSalary r + contribSavings r + contribDiscretionary r +
    contribUtility r + contribLending r + contribAtm r + contribAutodebit r

/-- `df["risk_score"] = comp.sum(axis=1).clip(0, 1)`. -/
def risk_score (r : SignalRecord) : ℚ := _clip (unclampedScore r) 0 1

/-- Tier monotonicity helper: `_tier` is non-decreasing in score under
Low < Medium < High. -/
theorem tierRank_tier_mono {s t : ℚ} (h : s ≤ t) :
    tierRank (_tier s) ≤ tierRank (_tier t) := by
  unfold _tier
  by_cases hs1 : s < 0.4 <;> by_cases hs2 : s ≤ 0.7 <;>
    by_cases ht1 : t < 0.4 <;> by_cases ht2 : t ≤ 0.7 <;>
    simp only [hs1, hs2, ht1, ht2, if_true, if_false, ite_true, ite_false] <;>
    first
      | decide
      | (exfalso; linarith)

/-- C1: the tier classifier is a pure function of the score with
boundaries `score < 0.40 → Low`, `0.40 ≤ score ≤ 0.70 → Medium`,
`score > 0.70 → High`; in particular 0.40 and 0.70 map to Medium, and the
classifier is monotonic non-decreasing under Low < Medium < High. -/
theorem tier_boundaries_and_monotone (s t : ℚ) (hst : s ≤ t) :
    (s < 0.40 → _tier s = "Low") ∧
    (0.40 ≤ s → s ≤ 0.70 → _tier s = "Medium") ∧
    (0.70 < s → _tier s = "High") ∧
    _tier (0.40 : ℚ) = "Medium" ∧
    _tier (0.70 : ℚ) = "Medium" ∧
    tierRank (_tier s) ≤ tierRank (_tier t) := by
  refine ⟨?_, ?_, ?_, ?_, ?_, tierRank_tier_mono hst⟩
  · intro h; simp only [_tier]; rw [if_pos (by norm_num at h ⊢; linarith)]
  · intro h1 h2
    simp only [_tier]
    rw [if_neg (by norm_num at h1 ⊢; linarith), if_pos (by norm_num at h2 ⊢; linarith)]
  · intro h
    simp only [_tier]
    rw [if_neg (by norm_num at h ⊢; linarith), if_neg (by norm_num at h ⊢; linarith)]
  · norm_num [_tier]
  · norm_num [_tier]

/-- Witness for C1 at the concrete pair (0.40, 0.80). -/
theorem tier_boundaries_and_monotone_witness :
    _tier (0.40 : ℚ) = "Medium" :=
  (tier_boundaries_and_monotone 0.40 0.80 (by norm_num)).2.2.2.1

theorem clip01_nonneg (v : ℚ) : 0 ≤ _clip v 0 1 := le_max_left _ _

theorem clip01_le_one (v : ℚ) : _clip v 0 1 ≤ 1 :=
  max_le (by norm_num) (min_le_left _ _)

theorem clip01_eq_self {v : ℚ} (h0 : 0 ≤ v) (h1 : v ≤ 1) : _clip v 0 1 = v := by
  unfold _clip
  rw [min_eq_right h1, max_eq_right h0]

/-- A clipped-linear contribution lies between 0 and its weight. -/
theorem clip_mul_weight_bounds (v w : ℚ) (hw : 0 ≤ w) :
    0 ≤ _clip v 0 1 * w ∧ _clip v 0 1 * w ≤ w := by
  constructor
  · exact mul_nonneg (clip01_nonneg v) hw
  · calc _clip v 0 1 * w ≤ 1 * w :=
          mul_le_mul_of_nonneg_right (clip01_le_one v) hw
      _ = w := one_mul w

theorem contribSalary_bounds (r : SignalRecord) :
    0 ≤ contribSalary r ∧ contribSalary r ≤ 0.18 := by
  simpa [contribSalary, WEIGHTS] using
    clip_mul_weight_bounds ((r.salary_delay_days - 3) / 4) 0.18 (by norm_num)

theorem contribSavings_bounds (r : SignalRecord) :
    0 ≤ contribSavings r ∧ contribSavings r ≤ 0.17 := by
  simpa [contribSavings, WEIGHTS] using
    clip_mul_weight_bounds ((r.savings_drop_pct - 20) / 20) 0.17 (by norm_num)

theorem contribDiscretionary_bounds (r : SignalRecord) :
    0 ≤ contribDiscretionary r ∧ contribDiscretionary r ≤ 0.14 := by
  simpa [contribDiscretionary, WEIGHTS] using
    clip_mul_weight_bounds ((-40 - r.discretionary_spend_change_pct) / 30) 0.14
      (by norm_num)

theorem contribUtility_bounds (r : SignalRecord) :
    0 ≤ contribUtility r ∧ contribUtility r ≤ 0.14 := by
  simpa [contribUtility, WEIGHTS] using
    clip_mul_weight_bounds ((r.utility_payment_delay_days - 5) / 5) 0.14
      (by norm_num)

theorem contribLending_bounds (r : SignalRecord) :
    0 ≤ contribLending r ∧ contribLending r ≤ 0.12 := by
  simpa [contribLending, WEIGHTS] using
    clip_mul_weight_bounds ((r.lending_app_upi_txn_count - 3) / 5) 0.12
      (by norm_num)

theorem contribAtm_bounds (r : SignalRecord) :
    0 ≤ contribAtm r ∧ contribAtm r ≤ 0.10 := by
  simpa [contribAtm, WEIGHTS] using
    clip_mul_weight_bounds ((r.atm_withdrawal_spike_pct - 30) / 30) 0.10
      (by norm_num)

theorem contribAutodebit_bounds (r : SignalRecord) :
    0 ≤ contribAutodebit r ∧ contribAutodebit r ≤ 0.15 := by
  unfold contribAutodebit WEIGHTS
  cases r.failed_autodebit <;> norm_num

theorem unclampedScore_bounds (r : SignalRecord) :
    0 ≤ unclampedScore r ∧ unclampedScore r ≤ 1 := by
  have h1 := contribSalary_bounds r
  have h2 := contribSavings_bounds r
  have h3 := contribDiscretionary_bounds r
  have h4 := contribUtility_bounds r
  have h5 := contribLending_bounds r
  have h6 := contribAtm_bounds r
  have h7 := contribAutodebit_bounds r
  unfold unclampedScore
  constructor <;> [linarith [h1.1, h2.1, h3.1, h4.1, h5.1, h6.1, h7.1];
    linarith [h1.2, h2.2, h3.2, h4.2, h5.2, h6.2, h7.2]]

/-- C2: every per-signal contribution lies in [0, weight], the weights sum
to 1.0 within 1e-9 (here exactly), the composite `risk_score` is the
clamped sum, and the unclamped sum never leaves [0,1], so the defensive
clamp never fires: `risk_score` equals the plain sum. -/
theorem risk_components_contract (r : SignalRecord) :
    (∀ p ∈ contributions r, 0 ≤ p.2 ∧ p.2 ≤ WEIGHTS p.1) ∧
    |(FEATURES.map WEIGHTS).sum - 1| ≤ 1e-9 ∧
    unclampedScore r = ((contributions r).map Prod.snd).sum ∧
    risk_score r = _clip (unclampedScore r) 0 1 ∧
    unclampedScore r ≤ 1 ∧
    risk_score r = unclampedScore r := by
  refine ⟨?_, ?_, ?_, rfl, (unclampedScore_bounds r).2, ?_⟩
  · intro p hp
    simp only [contributions, List.mem_cons, List.not_mem_nil, or_false] at hp
    rcases hp with h | h | h | h | h | h | h <;> subst h <;>
      simp only [WEIGHTS] <;>
      first
        | exact contribSalary_bounds r
        | exact contribSavings_bounds r
        | exact contribDiscretionary_bounds r
        | exact contribUtility_bounds r
        | exact contribLending_bounds r
        | exact contribAtm_bounds r
        | exact contribAutodebit_bounds r
  · norm_num [FEATURES, WEIGHTS]
  · simp only [contributions, List.map_cons, List.map_nil, List.sum_cons,
      List.sum_nil, unclampedScore]
    ring
  · exact clip01_eq_self (unclampedScore_bounds r).1 (unclampedScore_bounds r).2

/-- A concrete all-quiet Signal Record, used to instantiate theorems. -/
def quietRecord : SignalRecord :=
  { salary_delay_days := 0
  , savings_drop_pct := 0
  , discretionary_spend_change_pct := 0
  , utility_payment_delay_days := 0
  , lending_app_upi_txn_count := 0
  , atm_withdrawal_spike_pct := 0
  , failed_autodebit := false }

/-- Witness for C2 at the concrete record `quietRecord` and the salary
contribution. -/
theorem risk_components_contract_witness :
    0 ≤ contribSalary quietRecord ∧
      contribSalary quietRecord ≤ WEIGHTS "salary_delay_days" :=
  (risk_components_contract quietRecord).1
    ("salary_delay_days", contribSalary quietRecord)
    (by simp [contributions])

/-! ## Portfolio Impact Simulator (`render_impact_tab`) -/

/-- The externally supplied parameter set of the Impact Simulator
(sidebar inputs of `render_impact_tab`, plus the tier counts taken from
the latest snapshot).  Case counts are integers, money and rates exact
rationals. -/
structure ImpactParams where
  high_count : ℤ
  medium_count : ℤ
  avg_exposure : ℚ
  baseline_high : ℚ
  baseline_medium : ℚ
  collection_cost_pct : ℚ
  eff_high : ℚ
  eff_medium : ℚ
  lgd_pct : ℚ
  recovery_rate : ℚ
  recovery_uplift : ℚ
  cost_per_high : ℚ
  cost_per_medium : ℚ
  outreach_capacity : ℤ

/-- The quantities `render_impact_tab` computes from the parameters. -/
structure ImpactReport where
  eligible_cases : ℤ
  contacted_high : ℤ
  contacted_medium : ℤ
  non_contacted_high : ℤ
  non_contacted_medium : ℤ
  overflow : ℤ
  defaults_wo : ℚ
  ead_wo : ℚ
  credit_loss_wo : ℚ
  recover_wo : ℚ
  collection_cost_wo : ℚ
  defaults_w : ℚ
  ead_w : ℚ
  credit_loss_w : ℚ
  recover_w : ℚ
  collection_cost_w : ℚ
  outreach_cost : ℚ
  default_reduction_pct : ℚ
  credit_loss_saved : ℚ
  collection_saved : ℚ
  net_savings : ℚ

/-- The computation block of `render_impact_tab`, line for line: capacity
split, without-engine losses, capacity-aware with-engine losses, and net
impact. -/
def render_impact (p : ImpactParams) : ImpactReport :=
  let eligible_cases : ℤ := p.high_count + p.medium_count
  let contacted_high : ℤ := min p.high_count p.outreach_capacity
  let remaining_cap : ℤ := p.outreach_capacity - contacted_high
  let contacted_medium : ℤ := min p.medium_count (max 0 remaining_cap)
  let non_contacted_high : ℤ := p.high_count - contacted_high
  let non_contacted_medium : ℤ := p.medium_count - contacted_medium
  let overflow : ℤ := max 0 (eligible_cases - p.outreach_capacity)
  let defaults_wo : ℚ :=
    p.high_count * p.baseline_high + p.medium_count * p.baseline_medium
  let ead_wo : ℚ := defaults_wo * p.avg_exposure
  let credit_loss_wo : ℚ := ead_wo * p.lgd_pct
  let recover_wo : ℚ := ead_wo * p.recovery_rate
  let collection_cost_wo : ℚ := recover_wo * p.collection_cost_pct
  let reduced_high : ℚ := p.baseline_high * (1 - p.eff_high)
  let reduced_medium : ℚ := p.baseline_medium * (1 - p.eff_medium)
  let recovery_contacted : ℚ := min 1 (p.recovery_rate + p.recovery_uplift)
  let contacted_defaults : ℚ :=
    contacted_high * reduced_high + contacted_medium * reduced_medium
  let non_contacted_defaults : ℚ :=
    non_contacted_high * p.baseline_high +
      non_contacted_medium * p.baseline_medium
  let defaults_w : ℚ := contacted_defaults + non_contacted_defaults
  let contacted_ead : ℚ := contacted_defaults * p.avg_exposure
  let non_contacted_ead : ℚ := non_contacted_defaults * p.avg_exposure
  let ead_w : ℚ := contacted_ead + non_contacted_ead
  let credit_loss_w : ℚ := ead_w * p.lgd_pct
  let recover_w : ℚ :=
    contacted_ead * recovery_contacted + non_contacted_ead * p.recovery_rate
  let collection_cost_w : ℚ := recover_w * p.collection_cost_pct
  let outreach_cost : ℚ :=
    contacted_high * p.cost_per_high + contacted_medium * p.cost_per_medium
  let default_reduction_pct : ℚ :=
    if 0 < defaults_wo then (defaults_wo - defaults_w) / defaults_wo * 100
    else 0
  let credit_loss_saved : ℚ := credit_loss_wo - credit_loss_w
  let collection_saved : ℚ := collection_cost_wo - collection_cost_w
  let net_savings : ℚ :=
    (credit_loss_wo + collection_cost_wo) -
      (credit_loss_w + collection_cost_w) - outreach_cost
  { eligible_cases := eligible_cases
  , contacted_high := contacted_high
  , contacted_medium := contacted_medium
  , non_contacted_high := non_contacted_high
  , non_contacted_medium := non_contacted_medium
  , overflow := overflow
  , defaults_wo := defaults_wo
  , ead_wo := ead_wo
  , credit_loss_wo := credit_loss_wo
  , recover_wo := recover_wo
  , collection_cost_wo := collection_cost_wo
  , defaults_w := defaults_w
  , ead_w := ead_w
  , credit_loss_w := credit_loss_w
  , recover_w := recover_w
  , collection_cost_w := collection_cost_w
  , outreach_cost := outreach_cost
  , default_reduction_pct := default_reduction_pct
  , credit_loss_saved := credit_loss_saved
  , collection_saved := collection_saved
  , net_savings := net_savings }

/-- The concrete scenario of the spec's §8 test item. -/
def scenarioParams : ImpactParams :=
  { high_count := 30
  , medium_count := 50
  , avg_exposure := 50000
  , baseline_high := 0.15
  , baseline_medium := 0.07
  , collection_cost_pct := 0.18
  , eff_high := 0.40
  , eff_medium := 0.20
  , lgd_pct := 0.55
  , recovery_rate := 0.60
  , recovery_uplift := 0.10
  , cost_per_high := 60
  , cost_per_medium := 10
  , outreach_capacity := 120 }

/-- C3: on the concrete scenario (30 High, 50 Medium, capacity 120,
rates 15%/7%, effects 40%/20%, …) the simulator contacts all 80 cases,
produces baseline defaults 8.0, with-engine defaults 5.5, a 31.25%
default reduction, and net savings given by the stated formula
(deterministically ₹75000). -/
theorem impact_scenario_values :
    (render_impact scenarioParams).contacted_high = 30 ∧
    (render_impact scenarioParams).contacted_medium = 50 ∧
    (render_impact scenarioParams).defaults_wo = 8 ∧
    (render_impact scenarioParams).defaults_w = 5.5 ∧
    (render_impact scenarioParams).default_reduction_pct = 31.25 ∧
    (render_impact scenarioParams).net_savings =
      ((render_impact scenarioParams).credit_loss_wo +
          (render_impact scenarioParams).collection_cost_wo) -
        ((render_impact scenarioParams).credit_loss_w +
          (render_impact scenarioParams).collection_cost_w) -
        (render_impact scenarioParams).outreach_cost ∧
    (render_impact scenarioParams).net_savings = 75000 := by
  norm_num [render_impact, scenarioParams]

/-- C4: the capacity allocation serves High first, with the stated `min`
and `max` formulas; the contacted total never exceeds capacity and the
overflow is never negative. -/
theorem capacity_allocation_invariants (p : ImpactParams)
    (hh : 0 ≤ p.high_count) (hm : 0 ≤ p.medium_count)
    (hc : 0 ≤ p.outreach_capacity) :
    (render_impact p).contacted_high = min p.high_count p.outreach_capacity ∧
    (render_impact p).contacted_medium =
      min p.medium_count
        (max 0 (p.outreach_capacity - (render_impact p).contacted_high)) ∧
    (render_impact p).contacted_high + (render_impact p).contacted_medium ≤
      p.outreach_capacity ∧
    (render_impact p).overflow =
      max 0 (p.high_count + p.medium_count - p.outreach_capacity) ∧
    0 ≤ (render_impact p).overflow := by
  refine ⟨rfl, rfl, ?_, rfl, le_max_left _ _⟩
  simp only [render_impact]
  omega

/-- Witness for C4 at the concrete scenario parameters. -/
theorem capacity_allocation_invariants_witness :
    (render_impact scenarioParams).contacted_high +
        (render_impact scenarioParams).contacted_medium ≤
      scenarioParams.outreach_capacity :=
  (capacity_allocation_invariants scenarioParams (by norm_num [scenarioParams])
    (by norm_num [scenarioParams]) (by norm_num [scenarioParams])).2.2.1

/-! ## Customer View: estimated impact after intervention -/

/-- The tier-dependent `reduction_factor` of `render_customer_tab`:
0.40 for High, 0.20 for Medium, else 0.05. -/
def reduction_factor (tier : String) : ℚ :=
  if tier = "High" then 0.40
  else if tier = "Medium" then 0.20
  else 0.05

/-- `adjusted_score = score * (1 - reduction_factor)` from
`render_customer_tab`; the row's `risk_tier` is `_tier` of its
`risk_score` (set that way in `generate_data`), so the factor is taken at
`_tier score`. -/
def adjusted_score (score : ℚ) : ℚ :=
  score * (1 - reduction_factor (_tier score))

/-- C10: the projected post-intervention score is `score × (1 − r)` with
r = 0.40/0.20/0.05 by tier; 0 ≤ r < 1, so for a non-negative score the
adjusted score never exceeds the original and, by tier monotonicity, the
post-intervention tier is never strictly higher. -/
theorem adjusted_score_never_raises_tier (s : ℚ) (hs : 0 ≤ s) :
    (_tier s = "High" → reduction_factor (_tier s) = 0.40) ∧
    (_tier s = "Medium" → reduction_factor (_tier s) = 0.20) ∧
    (_tier s = "Low" → reduction_factor (_tier s) = 0.05) ∧
    0 ≤ reduction_factor (_tier s) ∧
    reduction_factor (_tier s) < 1 ∧
    adjusted_score s = s * (1 - reduction_factor (_tier s)) ∧
    adjusted_score s ≤ s ∧
    tierRank (_tier (adjusted_score s)) ≤ tierRank (_tier s) := by
  have hr : 0 ≤ reduction_factor (_tier s) ∧ reduction_factor (_tier s) < 1 := by
    unfold reduction_factor
    split <;> [norm_num; split <;> norm_num]
  have hle : adjusted_score s ≤ s := by
    unfold adjusted_score
    calc s * (1 - reduction_factor (_tier s)) ≤ s * 1 :=
          mul_le_mul_of_nonneg_left (by linarith [hr.1]) hs
      _ = s := mul_one s
  refine ⟨?_, ?_, ?_, hr.1, hr.2, rfl, hle, tierRank_tier_mono hle⟩
  · intro h; rw [h]; simp [reduction_factor]
  · intro h; rw [h]; simp [reduction_factor]
  · intro h; rw [h]; simp [reduction_factor]

/-- Witness for C10 at the concrete score 0.80 (a High-tier score). -/
theorem adjusted_score_never_raises_tier_witness :
    adjusted_score (0.80 : ℚ) ≤ (0.80 : ℚ) ∧
      tierRank (_tier (adjusted_score (0.80 : ℚ))) ≤ tierRank (_tier (0.80 : ℚ)) :=
  ⟨(adjusted_score_never_raises_tier 0.80 (by norm_num)).2.2.2.2.2.2.1,
    (adjusted_score_never_raises_tier 0.80 (by norm_num)).2.2.2.2.2.2.2⟩

/-! ## Intervention Engine -/

/-- `intervention_engine(row, driver_labels)` from the source: the
first-match rule chain over the raw signals and the row's tier, returning
(action, message, rationale).  The tier is the row's `risk_tier` column,
passed here as an argument. -/
def intervention_engine (r : SignalRecord) (tier : String)
    (driver_labels : List String) : String × String × String :=
  let am : String × String :=
    if r.salary_delay_days > 3 ∧ r.savings_drop_pct > 20 then
      ("Offer EMI date shift / short grace period",
       "We noticed temporary cashflow pressure. We can shift your EMI date or provide a short grace period to avoid penalties.")
    else if r.failed_autodebit then
      ("Immediate proactive outreach + payment retry scheduling",
       "Your last autodebit did not go through. We can help schedule a retry at your preferred date and confirm account setup.")
    else if r.lending_app_upi_txn_count ≥ 3 then
      ("Offer restructuring / lower-cost credit line",
       "We can review your repayment plan and provide a lower-cost structured option to reduce monthly stress.")
    else if tier = "Medium" then
      ("Soft nudge + budgeting tips",
       "You are still in control. A quick budget tune-up and payment reminder can help keep your account healthy.")
    else if tier = "High" then
      ("Priority relationship-manager outreach with repayment planning",
       "A relationship manager can contact you today to set up a sustainable repayment plan and avoid delinquency.")
    else
      ("Continue monitoring",
       "No urgent intervention needed right now. We will continue monitoring weekly patterns.")
  (am.1, am.2,
    "Recommended because key drivers this week are " ++
      String.intercalate ", " (driver_labels.take 2) ++ ".")

/-- C5: the six rules fire strictly in priority order — the first whose
condition holds alone determines action and message — and the rationale
always cites the first two driver labels, whatever rule fired. -/
theorem intervention_priority (r : SignalRecord) (tier : String)
    (labels : List String) :
    (r.salary_delay_days > 3 ∧ r.savings_drop_pct > 20 →
      (intervention_engine r tier labels).1 =
          "Offer EMI date shift / short grace period" ∧
        (intervention_engine r tier labels).2.1 =
          "We noticed temporary cashflow pressure. We can shift your EMI date or provide a short grace period to avoid penalties.") ∧
    (¬(r.salary_delay_days > 3 ∧ r.savings_drop_pct > 20) →
      r.failed_autodebit = true →
      (intervention_engine r tier labels).1 =
          "Immediate proactive outreach + payment retry scheduling" ∧
        (intervention_engine r tier labels).2.1 =
          "Your last autodebit did not go through. We can help schedule a retry at your preferred date and confirm account setup.") ∧
    (¬(r.salary_delay_days > 3 ∧ r.savings_drop_pct > 20) →
      r.failed_autodebit = false →
      r.lending_app_upi_txn_count ≥ 3 →
      (intervention_engine r tier labels).1 =
          "Offer restructuring / lower-cost credit line" ∧
        (intervention_engine r tier labels).2.1 =
          "We can review your repayment plan and provide a lower-cost structured option to reduce monthly stress.") ∧
    (¬(r.salary_delay_days > 3 ∧ r.savings_drop_pct > 20) →
      r.failed_autodebit = false →
      ¬r.lending_app_upi_txn_count ≥ 3 →
      tier = "Medium" →
      (intervention_engine r tier labels).1 = "Soft nudge + budgeting tips" ∧
        (intervention_engine r tier labels).2.1 =
          "You are still in control. A quick budget tune-up and payment reminder can help keep your account healthy.") ∧
    (¬(r.salary_delay_days > 3 ∧ r.savings_drop_pct > 20) →
      r.failed_autodebit = false →
      ¬r.lending_app_upi_txn_count ≥ 3 →
      tier ≠ "Medium" → tier = "High" →
      (intervention_engine r tier labels).1 =
          "Priority relationship-manager outreach with repayment planning" ∧
        (intervention_engine r tier labels).2.1 =
          "A relationship manager can contact you today to set up a sustainable repayment plan and avoid delinquency.") ∧
    (¬(r.salary_delay_days > 3 ∧ r.savings_drop_pct > 20) →
      r.failed_autodebit = false →
      ¬r.lending_app_upi_txn_count ≥ 3 →
      tier ≠ "Medium" → tier ≠ "High" →
      (intervention_engine r tier labels).1 = "Continue monitoring" ∧
        (intervention_engine r tier labels).2.1 =
          "No urgent intervention needed right now. We will continue monitoring weekly patterns.") ∧
    (intervention_engine r tier labels).2.2 =
      "Recommended because key drivers this week are " ++
        String.intercalate ", " (labels.take 2) ++ "." := by
  refine ⟨?_, ?_, ?_, ?_, ?_, ?_, rfl⟩
  · intro h1
    simp [intervention_engine, h1]
  · intro h1 h2
    simp [intervention_engine, h1, h2]
  · intro h1 h2 h3
    simp [intervention_engine, h1, h2, h3]
  · intro h1 h2 h3 h4
    simp [intervention_engine, h1, h2, h3, h4]
  · intro h1 h2 h3 h4 h5
    simp [intervention_engine, h1, h2, h3, h4, h5]
  · intro h1 h2 h3 h4 h5
    simp [intervention_engine, h1, h2, h3, h4, h5]

/-- Witness for C5: a record with a 5-day salary delay and a 25% savings
drop fires rule 1 whatever the tier. -/
theorem intervention_priority_witness :
    (intervention_engine
        { quietRecord with salary_delay_days := 5, savings_drop_pct := 25 }
        "Low" ["Salary Delay Days", "Savings Drop %"]).1 =
      "Offer EMI date shift / short grace period" :=
  (intervention_priority
      { quietRecord with salary_delay_days := 5, savings_drop_pct := 25 }
      "Low" ["Salary Delay Days", "Savings Drop %"]).1
    (by constructor <;> norm_num [quietRecord]) |>.1

/-! ## Driver Attributor (`top_drivers`)

Python's `sorted(pairs, key=lambda x: x[1], reverse=True)` is a stable
descending sort: elements with equal key keep their input order.  It is
embedded as a stable insertion sort: a new element passes over strictly
greater keys and stops before the first element whose key is not
strictly greater, hence before any equal key that came later in the
input. -/

/-- Insert `p` into a descending-sorted list, after all strictly greater
contributions and before equal ones. -/
def sInsert (p : String × ℚ) : List (String × ℚ) → List (String × ℚ)
  | [] => [p]
  | q :: l => if p.2 < q.2 then q :: sInsert p l else p :: q :: l

/-- Stable descending sort by contribution, embedding
`sorted(pairs, key=lambda x: x[1], reverse=True)`. -/
def sortDesc : List (String × ℚ) → List (String × ℚ)
  | [] => []
  | a :: l => sInsert a (sortDesc l)

/-- The seven (signal, contribution) pairs of a contribution vector, in
`FEATURES` declaration order (the list comprehension in `top_drivers`). -/
def pairsOf (c : String → ℚ) : List (String × ℚ) :=
  FEATURES.map (fun f => (f, c f))

/-- `top_drivers(row, n)` from the source: the first `n` pairs of the
stable descending sort of the contribution vector. -/
def top_drivers (c : String → ℚ) (n : ℕ) : List (String × ℚ) :=
  (sortDesc (pairsOf c)).take n

/-- Position of a signal in the declaration order. -/
def featIdx (f : String) : ℕ := FEATURES.indexOf f

/-- Strict order on pairs: larger contribution first, ties by declaration
order. -/
def lexR (p q : String × ℚ) : Prop :=
  q.2 < p.2 ∨ (p.2 = q.2 ∧ featIdx p.1 < featIdx q.1)

theorem sInsert_perm (p : String × ℚ) (l : List (String × ℚ)) :
    List.Perm (sInsert p l) (p :: l) := by
  induction l with
  | nil => exact List.Perm.refl _
  | cons q t ih =>
    unfold sInsert
    split
    · exact ((ih.cons q).trans (List.Perm.swap p q t))
    · exact List.Perm.refl _

theorem sortDesc_perm (l : List (String × ℚ)) : List.Perm (sortDesc l) l := by
  induction l with
  | nil => exact List.Perm.refl _
  | cons a t ih => exact (sInsert_perm a (sortDesc t)).trans (ih.cons a)

theorem sInsert_pairwise_lex (a : String × ℚ) (l : List (String × ℚ))
    (hl : l.Pairwise lexR) (ha : ∀ q ∈ l, featIdx a.1 < featIdx q.1) :
    (sInsert a l).Pairwise lexR := by
  induction l with
  | nil => simp [sInsert, lexR]
  | cons q t ih =>
    rcases List.pairwise_cons.mp hl with ⟨hq, ht⟩
    unfold sInsert
    split
    · rename_i hlt
      refine List.pairwise_cons.mpr ⟨?_, ?_⟩
      · intro x hx
        rcases List.mem_cons.mp (((sInsert_perm a t).mem_iff).mp hx) with hxa | hxt
        · rw [hxa]; exact Or.inl hlt
        · exact hq x hxt
      · exact ih ht (fun x hx => ha x (List.mem_cons_of_mem q hx))
    · rename_i hge
      push_neg at hge
      refine List.pairwise_cons.mpr ⟨?_, hl⟩
      intro x hx
      rcases List.mem_cons.mp hx with hxq | hxt
      · rw [hxq]
        rcases lt_or_eq_of_le hge with h | h
        · exact Or.inl h
        · exact Or.inr ⟨h.symm, ha q (List.mem_cons_self q t)⟩
      · have hxle : x.2 ≤ a.2 := by
          rcases hq x hxt with h | h
          · exact le_trans (le_of_lt h) hge
          · exact le_trans (le_of_eq h.1.symm) hge
        rcases lt_or_eq_of_le hxle with h | h
        · exact Or.inl h
        · exact Or.inr ⟨h.symm, ha x (List.mem_cons_of_mem q hxt)⟩

theorem sortDesc_pairwise_lex (l : List (String × ℚ))
    (h : l.Pairwise (fun p q => featIdx p.1 < featIdx q.1)) :
    (sortDesc l).Pairwise lexR := by
  induction l with
  | nil => simp [sortDesc]
  | cons a t ih =>
    rcases List.pairwise_cons.mp h with ⟨ha, ht⟩
    exact sInsert_pairwise_lex a (sortDesc t) (ih ht)
      (fun q hq => ha q (((sortDesc_perm t).mem_iff).mp hq))

theorem pairsOf_pairwise_idx (c : String → ℚ) :
    (pairsOf c).Pairwise (fun p q => featIdx p.1 < featIdx q.1) := by
  unfold pairsOf
  rw [List.pairwise_map]
  simp only [featIdx]
  decide

theorem pairsOf_length (c : String → ℚ) : (pairsOf c).length = 7 := rfl

/-- C6: `top_drivers` returns the first N of the seven pairs in stable
descending order: the result has length min(N,7), draws from the seven
(signal, contribution) pairs, is sorted descending by contribution, and
breaks exact ties by the signals' declaration order. -/
theorem top_drivers_spec (c : String → ℚ) (n : ℕ) :
    (top_drivers c n).length = min n 7 ∧
    (∀ p ∈ top_drivers c n, p ∈ pairsOf c) ∧
    (∀ p ∈ top_drivers c n, p.1 ∈ FEATURES) ∧
    (top_drivers c n).Pairwise (fun p q => q.2 ≤ p.2) ∧
    (top_drivers c n).Pairwise
      (fun p q => p.2 = q.2 → featIdx p.1 < featIdx q.1) := by
  have hperm := sortDesc_perm (pairsOf c)
  have hsub : List.Sublist (top_drivers c n) (sortDesc (pairsOf c)) :=
    List.take_sublist n _
  have hmem : ∀ p ∈ top_drivers c n, p ∈ pairsOf c := by
    intro p hp
    exact hperm.mem_iff.mp (hsub.mem hp)
  have hlex := (sortDesc_pairwise_lex (pairsOf c) (pairsOf_pairwise_idx c)).sublist hsub
  refine ⟨?_, hmem, ?_, ?_, ?_⟩
  · rw [top_drivers, List.length_take, hperm.length_eq, pairsOf_length]
  · intro p hp
    rcases List.mem_map.mp (hmem p hp) with ⟨f, hf, hfp⟩
    rw [← hfp]
    exact hf
  · refine hlex.imp ?_
    intro p q h
    rcases h with h | h
    · exact le_of_lt h
    · exact le_of_eq h.1.symm
  · refine hlex.imp ?_
    intro p q h heq
    rcases h with h | h
    · exact absurd heq (by rw [heq] at h; exact fun _ => lt_irrefl _ h)
    · exact h.2

/-- Witness for C6 at the zero contribution vector and N = 2. -/
theorem top_drivers_spec_witness :
    (top_drivers (fun _ => 0) 2).length = min 2 7 :=
  (top_drivers_spec (fun _ => 0) 2).1

/-! ## Trend Classifier (`_risk_trend_label`) -/

/-- `tail(n)` of a pandas frame: the last `n` entries. -/
def lastN {α : Type} (n : ℕ) (l : List α) : List α := l.drop (l.length - n)

theorem lastN_length {α : Type} (n : ℕ) (l : List α) :
    (lastN n l).length = min n l.length := by
  simp only [lastN, List.length_drop]
  omega

/-- Sample variance with ddof = 1, the square of `pandas.Series.std()`:
`Σ (x − mean)² / (n − 1)`. -/
def sampleVar (l : List ℚ) : ℚ :=
  (l.map (fun x => (x - l.sum / l.length) ^ 2)).sum / ((l.length : ℚ) - 1)

/-- The square of the source's
`risk_std = last4.std() if len(last4) >= 2 else 0.0`
(`last4` is the tail(4) of the customer's score history). -/
def risk_std_sq (scores : List ℚ) : ℚ :=
  if 2 ≤ (lastN 4 scores).length then sampleVar (lastN 4 scores) else 0

/-- The stability label of `render_customer_tab`.  The source compares
`risk_std < 0.05` and `risk_std <= 0.12`; since the standard deviation is
the non-negative square root of the sample variance, the same branches
are taken when the variance is compared against the squared thresholds
(`stability_estimator_spec` states the thresholds on the square root
itself). -/
def stability_label (scores : List ℚ) : String :=
  if risk_std_sq scores < 0.05 ^ 2 then "High stability"
  else if risk_std_sq scores ≤ 0.12 ^ 2 then "Medium stability"
  else "Low stability"

theorem sampleVar_nonneg (l : List ℚ) (h : 2 ≤ l.length) : 0 ≤ sampleVar l := by
  unfold sampleVar
  apply div_nonneg
  · exact List.sum_nonneg (by
      intro x hx
      rcases List.mem_map.mp hx with ⟨y, _, hy⟩
      rw [← hy]
      exact sq_nonneg _)
  · have : (2 : ℚ) ≤ (l.length : ℚ) := by exact_mod_cast h
    linarith

theorem risk_std_sq_nonneg (scores : List ℚ) : 0 ≤ risk_std_sq scores := by
  unfold risk_std_sq
  split
  · exact sampleVar_nonneg _ (by assumption)
  · exact le_refl 0

/-- C9: the stability estimator takes the sample standard deviation of
the last 4 scores (zero when fewer than 2 observations) and labels it
`std < 0.05` → High, `std ≤ 0.12` → Medium, else Low; in particular a
history with fewer than 2 observations has std 0 and is labelled
"High stability". -/
theorem stability_estimator_spec (scores : List ℚ) :
    (Real.sqrt (risk_std_sq scores) < 0.05 →
      stability_label scores = "High stability") ∧
    (0.05 ≤ Real.sqrt (risk_std_sq scores) →
      Real.sqrt (risk_std_sq scores) ≤ 0.12 →
      stability_label scores = "Medium stability") ∧
    (0.12 < Real.sqrt (risk_std_sq scores) →
      stability_label scores = "Low stability") ∧
    (scores.length < 2 →
      Real.sqrt (risk_std_sq scores) = 0 ∧
        stability_label scores = "High stability") ∧
    (2 ≤ scores.length →
      risk_std_sq scores = sampleVar (lastN 4 scores)) := by
  have hv : (0 : ℚ) ≤ risk_std_sq scores := risk_std_sq_nonneg scores
  refine ⟨?_, ?_, ?_, ?_, ?_⟩
  · intro h
    have h1 : ((risk_std_sq scores : ℝ)) < (0.05 : ℝ) ^ 2 :=
      (Real.sqrt_lt' (by norm_num)).mp h
    rw [show ((0.05 : ℝ)) ^ 2 = (((0.05 : ℚ) ^ 2 : ℚ) : ℝ) by norm_num] at h1
    have h2 : risk_std_sq scores < 0.05 ^ 2 := by exact_mod_cast h1
    unfold stability_label
    rw [if_pos h2]
  · intro hlo hhi
    have h1 : ((0.05 : ℝ)) ^ 2 ≤ (risk_std_sq scores : ℝ) :=
      (Real.le_sqrt' (by norm_num)).mp hlo
    rw [show ((0.05 : ℝ)) ^ 2 = (((0.05 : ℚ) ^ 2 : ℚ) : ℝ) by norm_num] at h1
    have h2 : (0.05 : ℚ) ^ 2 ≤ risk_std_sq scores := by exact_mod_cast h1
    have h3 : ((risk_std_sq scores : ℝ)) ≤ (0.12 : ℝ) ^ 2 :=
      (Real.sqrt_le_left (by norm_num)).mp hhi
    rw [show ((0.12 : ℝ)) ^ 2 = (((0.12 : ℚ) ^ 2 : ℚ) : ℝ) by norm_num] at h3
    have h4 : risk_std_sq scores ≤ (0.12 : ℚ) ^ 2 := by exact_mod_cast h3
    unfold stability_label
    rw [if_neg (not_lt.mpr h2), if_pos h4]
  · intro h
    have h1 : ((0.12 : ℝ)) ^ 2 < (risk_std_sq scores : ℝ) :=
      (Real.lt_sqrt (by norm_num)).mp h
    rw [show ((0.12 : ℝ)) ^ 2 = (((0.12 : ℚ) ^ 2 : ℚ) : ℝ) by norm_num] at h1
    have h2 : (0.12 : ℚ) ^ 2 < risk_std_sq scores := by exact_mod_cast h1
    unfold stability_label
    rw [if_neg (not_lt.mpr (le_of_lt (lt_of_le_of_lt (by norm_num) h2))),
      if_neg (not_le.mpr h2)]
  · intro h
    have hlen : ¬2 ≤ (lastN 4 scores).length := by
      rw [lastN_length]
      omega
    have h0 : risk_std_sq scores = 0 := by
      unfold risk_std_sq
      rw [if_neg hlen]
    constructor
    · rw [h0]
      push_cast
      exact Real.sqrt_zero
    · unfold stability_label
      rw [h0, if_pos (by norm_num)]
  · intro h
    have hlen : 2 ≤ (lastN 4 scores).length := by
      rw [lastN_length]
      omega
    unfold risk_std_sq
    rw [if_pos hlen]

/-- Witness for C9 on the single-observation history [0.5]. -/
theorem stability_estimator_spec_witness :
    Real.sqrt (risk_std_sq [(0.5 : ℚ)]) = 0 ∧
      stability_label [(0.5 : ℚ)] = "High stability" :=
  (stability_estimator_spec [(0.5 : ℚ)]).2.2.2.1 (by simp)

/-! ## Error handling of out-of-domain records (C8) -/

theorem clip01_of_nonpos {v : ℚ} (h : v ≤ 0) : _clip v 0 1 = 0 := by
  unfold _clip
  rw [min_eq_right (le_trans h zero_le_one), max_eq_left h]

/-- C8 counterexample: a record with a negative day count is not rejected
— no error path exists — the clip silently maps it to a zero contribution
and a composite score is produced (here 0). -/
theorem negative_days_scored_counterexample :
    risk_score { quietRecord with salary_delay_days := -1 } = 0 ∧
      contribSalary { quietRecord with salary_delay_days := -1 } = 0 := by
  constructor <;>
    norm_num [risk_score, unclampedScore, contribSalary, contribSavings,
      contribDiscretionary, contribUtility, contribLending, contribAtm,
      contribAutodebit, _clip, WEIGHTS, quietRecord]

/-- C8 (amended): malformed or out-of-domain Signal Records are not
rejected before scoring: the scorer is total, the documented
normalization clips silently absorb out-of-range values — a negative day
count contributes exactly what a zero day count does — and the resulting
score still lies in [0,1]. -/
theorem scoring_totalizes_on_out_of_domain (r : SignalRecord) :
    0 ≤ risk_score r ∧ risk_score r ≤ 1 ∧
    (r.salary_delay_days ≤ 0 →
      contribSalary r = contribSalary { r with salary_delay_days := 0 }) ∧
    (r.utility_payment_delay_days ≤ 0 →
      contribUtility r = contribUtility
        { r with utility_payment_delay_days := 0 }) := by
  refine ⟨clip01_nonneg _, clip01_le_one _, ?_, ?_⟩
  · intro h
    unfold contribSalary
    rw [clip01_of_nonpos (by linarith : (r.salary_delay_days - 3) / 4 ≤ 0),
      clip01_of_nonpos (by norm_num :
        (({ r with salary_delay_days := 0 } :
            SignalRecord).salary_delay_days - 3) / 4 ≤ 0)]
  · intro h
    unfold contribUtility
    rw [clip01_of_nonpos
        (by linarith : (r.utility_payment_delay_days - 5) / 5 ≤ 0),
      clip01_of_nonpos (by norm_num :
        (({ r with utility_payment_delay_days := 0 } :
            SignalRecord).utility_payment_delay_days - 5) / 5 ≤ 0)]

/-- Witness for C8 (amended) at the concrete record with salary delay −1. -/
theorem scoring_totalizes_on_out_of_domain_witness :
    contribSalary { quietRecord with salary_delay_days := -1 } =
      contribSalary
        { { quietRecord with salary_delay_days := -1 } with
            salary_delay_days := 0 } :=
  (scoring_totalizes_on_out_of_domain
      { quietRecord with salary_delay_days := -1 }).2.2.1
    (by norm_num [quietRecord])

end PDIE
